import Mathlib

/-!
Shallow embedding of the download-queue subsystem of the
telegram-music-downloader repository: `src/download_queue.py`
(DownloadQueue, RateLimiter), `src/download_worker.py` (DownloadWorker
result handling) and `src/download_coordinator.py` (progress reporting).

Modelling conventions:
* the `media_info` payload dict becomes a structure holding exactly the
  keys the queue and worker read; absent keys are `none` and each
  `dict.get(key, default)` call site applies its default explicitly;
* Python sets become duplicate-free lists (`setAdd` is `set.add`), the
  `_pending_tasks` dict becomes an association list (its keys are unique,
  so `del` is modelled by `filter`);
* timestamps and float token counts become rationals;
* `await` suspension points are modelled by passing the relevant clock
  readings as explicit arguments; a blocked `get` on an empty queue is
  modelled as returning `none`.
-/

/-- The subset of the `media_info` payload dict read by the queue and the
worker: `channel_id` and `message_id` (identity), `file_size`, `filename`.
A missing key is `none`; defaults are applied at each `get` call site. -/
structure MediaInfo where
  channel_id : Option String
  message_id : Option Int
  file_size : Option Nat
  filename : String
deriving DecidableEq, Repr

/-- The `DownloadTask` dataclass (download_queue.py). `created_at` is
carried but never read by the queue or worker logic. -/
structure DownloadTask where
  media_info : MediaInfo
  file_info_str : String
  priority : Int
  created_at : ℚ
  attempts : Nat
  max_attempts : Nat
deriving DecidableEq, Repr

/-- `DownloadQueue` state: the underlying priority queue contents, the
`_pending_tasks` dict, the `_completed_tasks` / `_failed_tasks` sets, the
`_stats` counters, and the underlying asyncio queue's
`_unfinished_tasks` count (incremented by each accepted put, decremented
by each `Queue.task_done()` call, consulted by `join`). -/
structure DownloadQueue where
  max_size : Nat
  queue : List DownloadTask
  pending_tasks : List (String × DownloadTask)
  completed_tasks : List String
  failed_tasks : List String
  total_added : Nat
  total_completed : Nat
  total_failed : Nat
  current_size : Nat
  unfinished : Nat
deriving DecidableEq, Repr

/-- `DownloadQueue.__init__(max_size)`. -/
def DownloadQueue.init (max_size : Nat) : DownloadQueue :=
  { max_size := max_size, queue := [], pending_tasks := [],
    completed_tasks := [], failed_tasks := [],
    total_added := 0, total_completed := 0, total_failed := 0,
    current_size := 0, unfinished := 0 }

/-- `DownloadQueue._generate_task_id`: `f"{channel_id}_{message_id}"` with
`media_info.get('channel_id', 'unknown')` and
`media_info.get('message_id', 0)`. -/
def generate_task_id (media_info : MediaInfo) : String :=
  let channel_id := media_info.channel_id.getD "unknown"
  let message_id := media_info.message_id.getD 0
  channel_id ++ "_" ++ toString message_id

/-- Python `set.add`: insert if not already present. -/
def setAdd (x : String) (s : List String) : List String :=
  if s.contains x then s else x :: s

/-- `DownloadQueue.put`. Returns the result bool, the (possibly mutated)
task object, and the new queue state. The duplicate check covers the
pending dict and the completed set only; the priority is overwritten from
the file size after the check; a full bounded queue makes the insertion
fail (`maxsize <= 0` means unbounded, as in asyncio). A successful
insertion also increments the asyncio queue's unfinished-task count. -/
def DownloadQueue.put (s : DownloadQueue) (task : DownloadTask) :
    Bool × DownloadTask × DownloadQueue :=
  let task_id := generate_task_id task.media_info
  if s.pending_tasks.any (fun p => p.1 == task_id)
      || s.completed_tasks.contains task_id then
    (false, task, s)
  else
    let file_size_mb : Nat := task.media_info.file_size.getD 0 / (1024 * 1024)
    let task := { task with priority := (file_size_mb : Int) }
    if 0 < s.max_size ∧ s.max_size ≤ s.queue.length then
      (false, task, s)
    else
      let queue := s.queue ++ [task]
      (true, task,
        { s with queue := queue,
                 pending_tasks := (task_id, task) :: s.pending_tasks,
                 total_added := s.total_added + 1,
                 current_size := queue.length,
                 unfinished := s.unfinished + 1 })

/-- Pop a minimal-priority element of the heap contents (the only ordering
`DownloadTask.__lt__` provides is by `priority`; ties are broken by heap
shape, modelled here by first occurrence). -/
def popMin : List DownloadTask → Option (DownloadTask × List DownloadTask)
  | [] => none
  | t :: ts =>
    match popMin ts with
    | none => some (t, [])
    | some (m, rest) =>
      if t.priority ≤ m.priority then some (t, ts) else some (m, t :: rest)

/-- `DownloadQueue.get`: removes and returns a lowest-priority task and
refreshes `current_size`. It does not touch `_pending_tasks`. An empty
queue blocks the caller, modelled as `none`. -/
def DownloadQueue.get (s : DownloadQueue) : Option DownloadTask × DownloadQueue :=
  match popMin s.queue with
  | none => (none, s)
  | some (t, rest) => (some t, { s with queue := rest, current_size := rest.length })

/-- `DownloadQueue.task_done(task, success)`: drop the identity from the
pending dict if present, record it in the completed or failed set, bump
the matching counter, and finally call `self._queue.task_done()`
(line 98). That asyncio call decrements the unfinished-task count, but
raises `ValueError` when the count is already zero (called more times
than items were put) — see `task_done_raises`. The set/counter mutations
precede the raise, and `Nat` subtraction leaves the count at 0 exactly
as the raising call does, so this is the state after the call whether or
not it raised. -/
def DownloadQueue.task_done (s : DownloadQueue) (task : DownloadTask)
    (success : Bool) : DownloadQueue :=
  let task_id := generate_task_id task.media_info
  let pending := s.pending_tasks.filter (fun p => !(p.1 == task_id))
  if success then
    { s with pending_tasks := pending,
             completed_tasks := setAdd task_id s.completed_tasks,
             total_completed := s.total_completed + 1,
             unfinished := s.unfinished - 1 }
  else
    { s with pending_tasks := pending,
             failed_tasks := setAdd task_id s.failed_tasks,
             total_failed := s.total_failed + 1,
             unfinished := s.unfinished - 1 }

/-- Whether the `self._queue.task_done()` call at the end of
`DownloadQueue.task_done` raises: asyncio's `Queue.task_done` raises
`ValueError('task_done() called too many times')` when its unfinished
count is not positive at entry, i.e. when `task_done` has been called as
often as items were put. `DownloadQueue.task_done` does not catch it, so
it propagates to the caller. -/
def DownloadQueue.task_done_raises (s : DownloadQueue) : Bool :=
  s.unfinished == 0

/-- `DownloadQueue.retry_task`: increment the attempt counter; if it
reached `max_attempts`, mark the task terminally failed via
`task_done(success=False)` and return false; otherwise demote the
priority by 1000 and re-submit through `put`. -/
def DownloadQueue.retry_task (s : DownloadQueue) (task : DownloadTask) :
    Bool × DownloadTask × DownloadQueue :=
  let task := { task with attempts := task.attempts + 1 }
  if task.max_attempts ≤ task.attempts then
    (false, task, s.task_done task false)
  else
    let task := { task with priority := task.priority + 1000 }
    s.put task

/-- `DownloadQueue.clear`: drain the heap (each drained entry also calls
`self._queue.task_done()`, decrementing the unfinished count), empty the
pending dict and reset `current_size`; the completed/failed history and
the other counters are untouched. (A `ValueError` mid-drain is reachable
only after a prior `task_done` underflow and is outside every claim
here; the saturating subtraction models the counter after a full
drain.) -/
def DownloadQueue.clear (s : DownloadQueue) : DownloadQueue :=
  { s with queue := [], pending_tasks := [], current_size := 0,
           unfinished := s.unfinished - s.queue.length }

/-- The dict returned by `DownloadQueue.get_stats`. -/
structure QueueStats where
  total_added : Nat
  total_completed : Nat
  total_failed : Nat
  current_size : Nat
  pending_tasks : Nat
  completed_tasks : Nat
  failed_tasks : Nat
  queue_size : Nat
  is_empty : Bool
  is_full : Bool
deriving DecidableEq, Repr

/-- `DownloadQueue.get_stats`. -/
def DownloadQueue.get_stats (s : DownloadQueue) : QueueStats :=
  { total_added := s.total_added, total_completed := s.total_completed,
    total_failed := s.total_failed, current_size := s.current_size,
    pending_tasks := s.pending_tasks.length,
    completed_tasks := s.completed_tasks.length,
    failed_tasks := s.failed_tasks.length,
    queue_size := s.queue.length,
    is_empty := s.queue.isEmpty,
    is_full := decide (0 < s.max_size ∧ s.max_size ≤ s.queue.length) }

/-- Identity membership in the pending dict, as `put` tests it. -/
def pendingHas (s : DownloadQueue) (id : String) : Bool :=
  s.pending_tasks.any (fun p => p.1 == id)

example : generate_task_id ⟨none, none, none, "f"⟩ = "unknown_0" := by rfl

/-- `RateLimiter` state (download_queue.py): configured rate and burst,
the float token count and the last refill timestamp. -/
structure RateLimiter where
  requests_per_second : ℚ
  burst_size : ℚ
  tokens : ℚ
  last_update : ℚ
deriving DecidableEq, Repr

/-- `RateLimiter.__init__(requests_per_second, burst_size)` at clock
reading `now` (`asyncio.get_event_loop().time()`). -/
def RateLimiter.init (requests_per_second burst_size now : ℚ) : RateLimiter :=
  { requests_per_second := requests_per_second, burst_size := burst_size,
    tokens := burst_size, last_update := now }

/-- Outcome of one `RateLimiter.acquire` call: the state after the call
and the wait duration computed in the slow path (`none` when the call
returned immediately). -/
structure AcquireResult where
  state : RateLimiter
  waited : Option ℚ
deriving DecidableEq, Repr

/-- `RateLimiter.acquire` under the lock. `now` is the clock at entry,
`after_wait` the clock reading taken after the `asyncio.sleep` of the
slow path (unused in the fast path). Refills
`min(burst_size, tokens + elapsed * rate)`; with at least one token it
consumes one and returns at once, otherwise it waits
`(1 - tokens) / rate`, zeroes the tokens and refreshes the timestamp. -/
def RateLimiter.acquire (rl : RateLimiter) (now after_wait : ℚ) : AcquireResult :=
  let time_passed := now - rl.last_update
  let tokens := min rl.burst_size (rl.tokens + time_passed * rl.requests_per_second)
  let rl := { rl with tokens := tokens, last_update := now }
  if 1 ≤ tokens then
    { state := { rl with tokens := tokens - 1 }, waited := none }
  else
    let wait_time := (1 - tokens) / rl.requests_per_second
    { state := { rl with tokens := 0, last_update := after_wait },
      waited := some wait_time }

/-- Per-worker statistics touched by `_process_next_task` /
`_download_file` (download_worker.py). -/
structure WorkerStats where
  tasks_completed : Nat
  tasks_failed : Nat
  bytes_downloaded : Nat
deriving DecidableEq, Repr

/-- The field of the downloader result dict the worker branches on. -/
structure DownloadResult where
  status : String
deriving DecidableEq, Repr

/-- `DownloadWorker._download_file`: `none` stands for the downloader
raising (caught, returns False). Status `success` records the bytes and
returns True; status `skipped` returns True without recording bytes
(skipped files count as successful); anything else returns False. -/
def download_file (stats : WorkerStats) (task : DownloadTask)
    (result : Option DownloadResult) : Bool × WorkerStats :=
  match result with
  | none => (false, stats)
  | some result =>
    if result.status == "success" then
      (true, { stats with
        bytes_downloaded := stats.bytes_downloaded + task.media_info.file_size.getD 0 })
    else if result.status == "skipped" then
      (true, stats)
    else
      (false, stats)

/-- The bookkeeping tail of `DownloadWorker._process_next_task` once a
dequeued task's download finished: on success bump `tasks_completed` and
call `task_done(success=True)`; on failure call `retry_task`, and when
the retry is refused bump `tasks_failed`. -/
def process_task_result (stats : WorkerStats) (q : DownloadQueue)
    (task : DownloadTask) (result : Option DownloadResult) :
    WorkerStats × DownloadQueue :=
  let r := download_file stats task result
  if r.1 then
    ({ r.2 with tasks_completed := r.2.tasks_completed + 1 }, q.task_done task true)
  else
    let retry := q.retry_task task
    if retry.1 then (r.2, retry.2.2)
    else ({ r.2 with tasks_failed := r.2.tasks_failed + 1 }, retry.2.2)

/-- Python `int()` on a non-integer number: truncation toward zero. -/
def ratTrunc (x : ℚ) : ℤ := if x < 0 then ⌈x⌉ else ⌊x⌋

/-- Python `round` to an integer: round half to even. -/
def roundHalfEven (x : ℚ) : ℤ :=
  let f := ⌊x⌋
  let r := x - (f : ℚ)
  if r < 1 / 2 then f
  else if 1 / 2 < r then f + 1
  else if f % 2 = 0 then f else f + 1

/-- Python `round(x, 1)`. -/
def round1 (x : ℚ) : ℚ := (roundHalfEven (10 * x) : ℚ) / 10

/-- `DownloadCoordinator._estimate_time_remaining(pending_tasks,
completed_tasks, elapsed_time)`: `None` when any of the three inputs is
zero, else `int(pending * (elapsed / completed))`. -/
def estimate_time_remaining (pending_tasks completed_tasks : Nat)
    (elapsed_time : ℚ) : Option ℤ :=
  if completed_tasks = 0 ∨ elapsed_time = 0 ∨ pending_tasks = 0 then
    none
  else
    let avg_time_per_task := elapsed_time / (completed_tasks : ℚ)
    let estimated_seconds := (pending_tasks : ℚ) * avg_time_per_task
    some (ratTrunc estimated_seconds)

/-- The fields of the `DownloadCoordinator.get_progress_info` dict that
are computed from the queue snapshot and the elapsed time (the
worker-pool display fields — speed, active download list — draw on
worker state outside these claims and are omitted). -/
structure ProgressInfo where
  progress_percentage : ℚ
  total_tasks : Nat
  completed_tasks : Nat
  failed_tasks : Nat
  pending_tasks : Nat
  queue_size : Nat
  estimated_time_remaining : Option ℤ
deriving DecidableEq, Repr

/-- `DownloadCoordinator.get_progress_info` in the running state, as a
function of the queue stats snapshot and the elapsed session time:
percentage `(completed + failed) / total_added * 100` (0 when nothing was
added) rounded to one decimal, and the ETA estimate. -/
def get_progress_info (queue_stats : QueueStats) (elapsed_time : ℚ) : ProgressInfo :=
  let total_tasks := queue_stats.total_added
  let completed_tasks := queue_stats.completed_tasks
  let failed_tasks := queue_stats.failed_tasks
  let pending_tasks := queue_stats.pending_tasks
  let progress_percentage : ℚ :=
    if 0 < total_tasks then
      (((completed_tasks : ℚ) + (failed_tasks : ℚ)) / (total_tasks : ℚ)) * 100
    else 0
  { progress_percentage := round1 progress_percentage,
    total_tasks := total_tasks,
    completed_tasks := completed_tasks,
    failed_tasks := failed_tasks,
    pending_tasks := pending_tasks,
    queue_size := queue_stats.queue_size,
    estimated_time_remaining :=
      estimate_time_remaining pending_tasks completed_tasks elapsed_time }

/-- One public queue operation, for stating invariants over arbitrary
operation sequences. -/
inductive QueueOp where
  | put (t : DownloadTask)
  | get
  | taskDone (t : DownloadTask) (success : Bool)
  | retry (t : DownloadTask)
  | clear
deriving Repr

/-- Apply one operation to the queue state. -/
def applyOp (s : DownloadQueue) : QueueOp → DownloadQueue
  | .put t => (s.put t).2.2
  | .get => (s.get).2
  | .taskDone t success => s.task_done t success
  | .retry t => (s.retry_task t).2.2
  | .clear => s.clear

/-- Run a sequence of queue operations. -/
def runOps (s : DownloadQueue) : List QueueOp → DownloadQueue
  | [] => s
  | op :: ops => runOps (applyOp s op) ops

/-! ### Helper lemmas about the embedded operations -/

lemma mem_setAdd_self (x : String) (s : List String) : x ∈ setAdd x s := by
  unfold setAdd
  split
  · next h => simpa using h
  · exact List.mem_cons_self _ _

lemma mem_setAdd_iff (x y : String) (s : List String) :
    y ∈ setAdd x s ↔ (y = x ∨ y ∈ s) := by
  unfold setAdd
  split
  · next h =>
    constructor
    · exact fun hy => Or.inr hy
    · rintro (rfl | hy)
      · simpa using h
      · exact hy
  · simp

/-- The task object as `put` mutates it: priority overwritten with
`int(file_size / (1024 * 1024))`. -/
def putTask (t : DownloadTask) : DownloadTask :=
  { t with priority := ((t.media_info.file_size.getD 0 / (1024 * 1024) : Nat) : Int) }

lemma put_spec (s : DownloadQueue) (t : DownloadTask) :
    s.put t =
      (if ((s.pending_tasks.any fun p => p.1 == generate_task_id t.media_info)
            || s.completed_tasks.contains (generate_task_id t.media_info)) = true then
        (false, t, s)
      else if 0 < s.max_size ∧ s.max_size ≤ s.queue.length then
        (false, putTask t, s)
      else
        (true, putTask t,
          { s with queue := s.queue ++ [putTask t],
                   pending_tasks := (generate_task_id t.media_info, putTask t) :: s.pending_tasks,
                   total_added := s.total_added + 1,
                   current_size := (s.queue ++ [putTask t]).length,
                   unfinished := s.unfinished + 1 })) := rfl

lemma put_of_dup (s : DownloadQueue) (t : DownloadTask)
    (h : ((s.pending_tasks.any fun p => p.1 == generate_task_id t.media_info)
          || s.completed_tasks.contains (generate_task_id t.media_info)) = true) :
    s.put t = (false, t, s) := by
  rw [put_spec, if_pos h]

lemma put_of_pending (s : DownloadQueue) (t : DownloadTask)
    (h : pendingHas s (generate_task_id t.media_info) = true) :
    s.put t = (false, t, s) := by
  apply put_of_dup
  unfold pendingHas at h
  simp only [h, Bool.true_or]

lemma put_of_completed (s : DownloadQueue) (t : DownloadTask)
    (h : s.completed_tasks.contains (generate_task_id t.media_info) = true) :
    s.put t = (false, t, s) := by
  apply put_of_dup
  simp only [h, Bool.or_true]

lemma put_true_state (s : DownloadQueue) (t : DownloadTask)
    (h : (s.put t).1 = true) :
    (s.put t).2.2 =
      { s with queue := s.queue ++ [putTask t],
               pending_tasks := (generate_task_id t.media_info, putTask t) :: s.pending_tasks,
               total_added := s.total_added + 1,
               current_size := (s.queue ++ [putTask t]).length,
               unfinished := s.unfinished + 1 } := by
  rw [put_spec] at h ⊢
  split_ifs at h ⊢
  simp_all

lemma pendingHas_put_self (s : DownloadQueue) (t : DownloadTask)
    (h : (s.put t).1 = true) :
    pendingHas (s.put t).2.2 (generate_task_id t.media_info) = true := by
  rw [put_true_state s t h]
  simp [pendingHas]

/-- A second submission of the same identity right after an accepted one is
rejected without touching anything. -/
lemma put_second_dup (s : DownloadQueue) (t₁ t₂ : DownloadTask)
    (hid : generate_task_id t₁.media_info = generate_task_id t₂.media_info)
    (h1 : (s.put t₁).1 = true) :
    (s.put t₁).2.2.put t₂ = (false, t₂, (s.put t₁).2.2) := by
  apply put_of_pending
  have hp := pendingHas_put_self s t₁ h1
  rwa [hid] at hp

lemma task_done_true_spec (s : DownloadQueue) (t : DownloadTask) :
    s.task_done t true =
      { s with pending_tasks :=
                 s.pending_tasks.filter (fun p => !(p.1 == generate_task_id t.media_info)),
               completed_tasks := setAdd (generate_task_id t.media_info) s.completed_tasks,
               total_completed := s.total_completed + 1,
               unfinished := s.unfinished - 1 } := rfl

lemma task_done_false_spec (s : DownloadQueue) (t : DownloadTask) :
    s.task_done t false =
      { s with pending_tasks :=
                 s.pending_tasks.filter (fun p => !(p.1 == generate_task_id t.media_info)),
               failed_tasks := setAdd (generate_task_id t.media_info) s.failed_tasks,
               total_failed := s.total_failed + 1,
               unfinished := s.unfinished - 1 } := rfl

lemma pendingHas_filter_self (l : List (String × DownloadTask)) (id : String) :
    (l.filter fun p => !(p.1 == id)).any (fun p => p.1 == id) = false := by
  induction l with
  | nil => rfl
  | cons p l ih =>
    by_cases h : p.1 = id
    · simp [h, ih]
    · simp [h, ih]

lemma pendingHas_filter_le (l : List (String × DownloadTask)) (id id₂ : String)
    (h : l.any (fun p => p.1 == id₂) = false) :
    (l.filter fun p => !(p.1 == id)).any (fun p => p.1 == id₂) = false := by
  induction l with
  | nil => rfl
  | cons p l ih =>
    simp only [List.any_cons, Bool.or_eq_false_iff] at h
    by_cases hpid : p.1 = id
    · simpa [hpid] using ih h.2
    · simp [hpid, h.1, ih h.2]

/-! ### Concrete run used by several claims -/

/-- A payload with full identity fields and a zero declared size. -/
def mediaA : MediaInfo := ⟨some "chan", some 1, some 0, "song.mp3"⟩

/-- A fresh task over `mediaA` (attempts 0, max_attempts 3). -/
def taskA : DownloadTask := ⟨mediaA, "", 0, 0, 0, 3⟩

/-- The queue state after submitting `taskA` to a fresh queue of
capacity 100. -/
def stateAfterPut : DownloadQueue := ((DownloadQueue.init 100).put taskA).2.2

/-- The queue state after a worker then dequeues `taskA`. -/
def stateAfterGet : DownloadQueue := (stateAfterPut.get).2

/-! ### Claim theorems -/

/-- C10 counterexample: `task_done` does signal an error in the very
cases the claim highlights. On a fresh queue (unfinished-put count 0) a
`task_done` for a never-submitted task reaches the final
`self._queue.task_done()` with the count at zero, which raises
`ValueError`; and after the one dequeued task of the concrete run is
acknowledged once (no raise, count 1 → 0), a second `task_done` for the
same identity raises too. -/
theorem claim_C10_never_raises_counterexample :
    DownloadQueue.task_done_raises (DownloadQueue.init 100) = true ∧
    stateAfterGet.unfinished = 1 ∧
    DownloadQueue.task_done_raises stateAfterGet = false ∧
    (stateAfterGet.task_done (putTask taskA) true).unfinished = 0 ∧
    DownloadQueue.task_done_raises (stateAfterGet.task_done (putTask taskA) true) = true := by
  decide

/-- C10 amended: `task_done` performs its bookkeeping unconditionally — for
every state and every task, submitted or not, it records the identity in
the completed set (success) or the failed set (failure), bumps exactly
the matching counter and never touches `total_added`; calling it twice
for one identity grows `total_completed + total_failed` by two while
`total_added` is unchanged. But it is not error-free: after those
mutations it calls the underlying `Queue.task_done()`, which decrements
the unfinished-put count and raises `ValueError` exactly when that count
is already zero — i.e. when `task_done` is called more times than items
were put, as with a never-submitted identity on a fresh queue or the
second acknowledgment of a lone task. The mutations precede the raise. -/
theorem claim_C10_task_done_bookkeeping (s : DownloadQueue) (task : DownloadTask) :
    ((s.task_done task true).completed_tasks.contains (generate_task_id task.media_info) = true) ∧
    (s.task_done task true).total_completed = s.total_completed + 1 ∧
    (s.task_done task true).total_failed = s.total_failed ∧
    (s.task_done task true).total_added = s.total_added ∧
    ((s.task_done task false).failed_tasks.contains (generate_task_id task.media_info) = true) ∧
    (s.task_done task false).total_failed = s.total_failed + 1 ∧
    (s.task_done task false).total_completed = s.total_completed ∧
    (s.task_done task false).total_added = s.total_added ∧
    ((s.task_done task true).task_done task false).total_completed
      + ((s.task_done task true).task_done task false).total_failed
      = s.total_completed + s.total_failed + 2 ∧
    ((s.task_done task true).task_done task false).total_added = s.total_added ∧
    (s.task_done task true).unfinished = s.unfinished - 1 ∧
    (s.task_done task false).unfinished = s.unfinished - 1 ∧
    (DownloadQueue.task_done_raises s = true ↔ s.unfinished = 0) := by
  simp [DownloadQueue.task_done, DownloadQueue.task_done_raises, mem_setAdd_self]
  omega

/-- C7: a download that returns status `skipped` is handled exactly like
status `success` for queue bookkeeping: `task_done(success=True)` runs,
the identity enters the completed set, `total_completed` is bumped, the
failed set and `total_failed` are untouched and the worker's failure
counter does not move — the resulting queue state is literally the one a
`success` outcome would give. -/
theorem claim_C7_skipped_is_success (stats : WorkerStats) (q : DownloadQueue)
    (task : DownloadTask) :
    process_task_result stats q task (some ⟨"skipped"⟩)
      = ({ stats with tasks_completed := stats.tasks_completed + 1 }, q.task_done task true) ∧
    (process_task_result stats q task (some ⟨"skipped"⟩)).2
      = (process_task_result stats q task (some ⟨"success"⟩)).2 ∧
    ((process_task_result stats q task (some ⟨"skipped"⟩)).2.completed_tasks.contains
        (generate_task_id task.media_info) = true) ∧
    (process_task_result stats q task (some ⟨"skipped"⟩)).2.total_completed
      = q.total_completed + 1 ∧
    (process_task_result stats q task (some ⟨"skipped"⟩)).2.failed_tasks = q.failed_tasks ∧
    (process_task_result stats q task (some ⟨"skipped"⟩)).2.total_failed = q.total_failed ∧
    (process_task_result stats q task (some ⟨"skipped"⟩)).1.tasks_failed = stats.tasks_failed := by
  simp [process_task_result, download_file, DownloadQueue.task_done, mem_setAdd_self]

/-- C4: `put` is idempotent per identity — an identity already in the
pending map or the completed set makes `put` return false without touching
the queue, the sets, the counters or the task object; consequently a
second submission of an identity right after an accepted one is rejected.
The last conjunct shows the hypotheses are satisfiable on a concrete run:
a fresh queue accepts `taskA` and rejects its resubmission. -/
theorem claim_C4_put_idempotent :
    (∀ (s : DownloadQueue) (t : DownloadTask),
      (pendingHas s (generate_task_id t.media_info) = true
        ∨ s.completed_tasks.contains (generate_task_id t.media_info) = true) →
      s.put t = (false, t, s)) ∧
    (∀ (s : DownloadQueue) (t₁ t₂ : DownloadTask),
      generate_task_id t₁.media_info = generate_task_id t₂.media_info →
      (s.put t₁).1 = true →
      (s.put t₁).2.2.put t₂ = (false, t₂, (s.put t₁).2.2)) ∧
    (((DownloadQueue.init 100).put taskA).1 = true ∧
      stateAfterPut.put taskA = (false, taskA, stateAfterPut)) := by
  refine ⟨fun s t h => ?_, fun s t₁ t₂ hid h1 => put_second_dup s t₁ t₂ hid h1, by decide⟩
  rcases h with h | h
  · exact put_of_pending s t h
  · exact put_of_completed s t h

/-- C9: the task identity is the string `<channel_id>_<message_id>`, with
defaults `unknown` and `0` for missing fields; two payloads both missing
the identity fields collide on `unknown_0`, so once one of them is
accepted the other is rejected as a duplicate. The last conjunct
demonstrates this on a concrete run. -/
theorem claim_C9_identity_defaults :
    (∀ m : MediaInfo, m.channel_id = none → m.message_id = none →
      generate_task_id m = "unknown_0") ∧
    (∀ (s : DownloadQueue) (t₁ t₂ : DownloadTask),
      t₁.media_info.channel_id = none → t₁.media_info.message_id = none →
      t₂.media_info.channel_id = none → t₂.media_info.message_id = none →
      (s.put t₁).1 = true →
      ((s.put t₁).2.2.put t₂).1 = false) ∧
    (((DownloadQueue.init 100).put ⟨⟨none, none, some 7, "a.mp3"⟩, "", 0, 0, 0, 3⟩).1 = true ∧
      (((DownloadQueue.init 100).put ⟨⟨none, none, some 7, "a.mp3"⟩, "", 0, 0, 0, 3⟩).2.2.put
          ⟨⟨none, none, some 9, "b.mp3"⟩, "", 0, 0, 0, 3⟩).1 = false) := by
  refine ⟨fun m hc hm => ?_, fun s t₁ t₂ hc1 hm1 hc2 hm2 h1 => ?_, by decide⟩
  · simp [generate_task_id, hc, hm]
    rfl
  · have hid : generate_task_id t₁.media_info = generate_task_id t₂.media_info := by
      simp [generate_task_id, hc1, hm1, hc2, hm2]
    rw [put_second_dup s t₁ t₂ hid h1]

/-- C1: the claim fails on the code — after a fresh queue accepts `taskA`
and a worker dequeues it, the identity is still in the pending map
(`get` never removes it, only `task_done` does), so the `put` inside
`retry_task` rejects the re-submission as a duplicate: with the
incremented attempt counter still below `max_attempts` and the queue far
from capacity, `retry_task` returns false, the heap stays empty (the task
never re-enters it) and the task is in no terminal set either. -/
theorem claim_C1_retry_rejected :
    (((DownloadQueue.init 100).put taskA).1 = true) ∧
    (stateAfterPut.get).1 = some (putTask taskA) ∧
    (putTask taskA).attempts + 1 < (putTask taskA).max_attempts ∧
    stateAfterGet.queue.length < stateAfterGet.max_size ∧
    (stateAfterGet.retry_task (putTask taskA)).1 = false ∧
    (stateAfterGet.retry_task (putTask taskA)).2.2.queue = [] ∧
    pendingHas (stateAfterGet.retry_task (putTask taskA)).2.2 "chan_1" = true ∧
    (stateAfterGet.retry_task (putTask taskA)).2.2.failed_tasks = [] := by
  decide

lemma acquire_spec (rl : RateLimiter) (now after_wait : ℚ) :
    rl.acquire now after_wait =
      (if 1 ≤ min rl.burst_size (rl.tokens + (now - rl.last_update) * rl.requests_per_second) then
        { state := { rl with
            tokens := min rl.burst_size
              (rl.tokens + (now - rl.last_update) * rl.requests_per_second) - 1,
            last_update := now },
          waited := none }
      else
        { state := { rl with tokens := 0, last_update := after_wait },
          waited := some ((1 - min rl.burst_size
              (rl.tokens + (now - rl.last_update) * rl.requests_per_second))
            / rl.requests_per_second) }) := rfl

/-- C6: `acquire` keeps `tokens ∈ [0, burst_size]` whenever it starts from
such a state with a monotone clock and a positive rate; it refills to
`min(burst_size, tokens + elapsed * rate)`, and then either consumes one
token and returns at once (refill ≥ 1, timestamp set to now), or computes
the wait `(1 - tokens) / rate`, zeroes the tokens and refreshes the
timestamp to the post-sleep clock. -/
theorem claim_C6_acquire_token_bucket (rl : RateLimiter) (now after_wait : ℚ)
    (htok0 : 0 ≤ rl.tokens) (htokb : rl.tokens ≤ rl.burst_size)
    (hnow : rl.last_update ≤ now) (hrate : 0 < rl.requests_per_second) :
    (0 ≤ (rl.acquire now after_wait).state.tokens ∧
      (rl.acquire now after_wait).state.tokens ≤ rl.burst_size) ∧
    (1 ≤ min rl.burst_size (rl.tokens + (now - rl.last_update) * rl.requests_per_second) →
      (rl.acquire now after_wait).waited = none ∧
      (rl.acquire now after_wait).state.tokens
        = min rl.burst_size (rl.tokens + (now - rl.last_update) * rl.requests_per_second) - 1 ∧
      (rl.acquire now after_wait).state.last_update = now) ∧
    (min rl.burst_size (rl.tokens + (now - rl.last_update) * rl.requests_per_second) < 1 →
      (rl.acquire now after_wait).waited
        = some ((1 - min rl.burst_size
                  (rl.tokens + (now - rl.last_update) * rl.requests_per_second))
                / rl.requests_per_second) ∧
      (rl.acquire now after_wait).state.tokens = 0 ∧
      (rl.acquire now after_wait).state.last_update = after_wait) := by
  have hmul : 0 ≤ (now - rl.last_update) * rl.requests_per_second :=
    mul_nonneg (by linarith) (le_of_lt hrate)
  have hminb : min rl.burst_size (rl.tokens + (now - rl.last_update) * rl.requests_per_second)
      ≤ rl.burst_size := min_le_left _ _
  have hmin0 :
      0 ≤ min rl.burst_size (rl.tokens + (now - rl.last_update) * rl.requests_per_second) := by
    apply le_min
    · linarith
    · linarith
  rw [acquire_spec]
  split_ifs with h1
  · refine ⟨⟨?_, ?_⟩, fun _ => ⟨rfl, rfl, rfl⟩, fun hlt => absurd h1 (by linarith)⟩
    · dsimp only
      linarith
    · dsimp only
      linarith
  · push_neg at h1
    refine ⟨⟨le_refl 0, ?_⟩, fun hge => absurd hge (by push_neg; exact h1),
      fun _ => ⟨rfl, rfl, rfl⟩⟩
    dsimp only
    linarith

/-- C6 witness: the token invariant instantiated at a freshly constructed
limiter (rate 2, burst 5) acquired at time 0. -/
theorem claim_C6_acquire_token_bucket_witness :
    0 ≤ ((RateLimiter.init 2 5 0).acquire 0 0).state.tokens ∧
    ((RateLimiter.init 2 5 0).acquire 0 0).state.tokens ≤ (RateLimiter.init 2 5 0).burst_size :=
  (claim_C6_acquire_token_bucket (RateLimiter.init 2 5 0) 0 0
    (by norm_num [RateLimiter.init]) (by norm_num [RateLimiter.init])
    (by norm_num [RateLimiter.init]) (by norm_num [RateLimiter.init])).1

lemma roundHalfEven_intCast (z : ℤ) : roundHalfEven (z : ℚ) = z := by
  unfold roundHalfEven
  norm_num [Int.floor_intCast]

lemma floor_25_2 : ⌊(25 / 2 : ℚ)⌋ = 12 := by
  rw [Int.floor_eq_iff]
  norm_num

lemma round1_50 : round1 (50 : ℚ) = 50 := by
  unfold round1
  have h : (10 : ℚ) * 50 = ((500 : ℤ) : ℚ) := by norm_num
  rw [h, roundHalfEven_intCast]
  norm_num

/-- C5 counterexample: a snapshot with 4 completed tasks (non-zero) and no
pending ones — the code reports the ETA as `None`, while the claim allows
`None` only when `completed_tasks = 0` (its formula would give
`0 * (elapsed / completed) = 0` here). -/
theorem claim_C5_eta_counterexample :
    (get_progress_info ⟨4, 4, 0, 0, 0, 4, 0, 0, true, false⟩ 10).estimated_time_remaining
      = none ∧
    (get_progress_info ⟨4, 4, 0, 0, 0, 4, 0, 0, true, false⟩ 10).completed_tasks ≠ 0 := by
  constructor
  · decide
  · decide

/-- C5 amended: `progress_percentage` is `(completed + failed) / total_added
* 100` rounded to one decimal (50.0 on the spec's 10/4/1 example) and 0
when nothing was added; `estimated_time_remaining` is `None` exactly when
`completed_tasks`, the elapsed time or `pending_tasks` is zero — not only
when `completed_tasks = 0` — and otherwise is
`int(pending * (elapsed / completed))`, truncated (so `5 * (10/4)` reports
12, and a small enough estimate reports 0 rather than `None`). -/
theorem claim_C5_progress_info :
    (∀ e : ℚ, (get_progress_info ⟨10, 4, 1, 5, 5, 4, 1, 5, false, false⟩ e).progress_percentage
      = 50) ∧
    (∀ (qs : QueueStats) (e : ℚ),
      ((get_progress_info qs e).estimated_time_remaining = none ↔
        (qs.completed_tasks = 0 ∨ e = 0 ∨ qs.pending_tasks = 0))) ∧
    (∀ (qs : QueueStats) (e : ℚ), qs.completed_tasks ≠ 0 → e ≠ 0 → qs.pending_tasks ≠ 0 →
      (get_progress_info qs e).estimated_time_remaining
        = some (ratTrunc ((qs.pending_tasks : ℚ) * (e / (qs.completed_tasks : ℚ))))) ∧
    (∀ (qs : QueueStats) (e : ℚ), qs.total_added = 0 →
      (get_progress_info qs e).progress_percentage = 0) ∧
    (get_progress_info ⟨10, 4, 1, 5, 5, 4, 1, 5, false, false⟩ 10).estimated_time_remaining
      = some 12 ∧
    (get_progress_info ⟨10, 10, 0, 1, 1, 10, 0, 1, false, false⟩ 1).estimated_time_remaining
      = some 0 := by
  refine ⟨?_, ?_, ?_, ?_, ?_, ?_⟩
  · intro e
    show round1 (((4 : ℚ) + 1) / 10 * 100) = 50
    have h : ((4 : ℚ) + 1) / 10 * 100 = 50 := by norm_num
    rw [h]
    exact round1_50
  · intro qs e
    simp only [get_progress_info, estimate_time_remaining]
    split_ifs with h
    · simpa using h
    · simpa using h
  · intro qs e h1 h2 h3
    simp only [get_progress_info, estimate_time_remaining]
    rw [if_neg]
    push_neg
    exact ⟨h1, h2, h3⟩
  · intro qs e h
    simp only [get_progress_info, h]
    norm_num [round1, roundHalfEven]
  · show estimate_time_remaining 5 4 10 = some 12
    simp only [estimate_time_remaining]
    rw [if_neg (by norm_num)]
    congr 1
    show ratTrunc ((5 : ℚ) * (10 / 4)) = 12
    have h : (5 : ℚ) * (10 / 4) = 25 / 2 := by norm_num
    rw [h]
    unfold ratTrunc
    rw [if_neg (by norm_num)]
    exact floor_25_2
  · show estimate_time_remaining 1 10 1 = some 0
    simp only [estimate_time_remaining]
    rw [if_neg (by norm_num)]
    congr 1
    show ratTrunc ((1 : ℚ) * (1 / 10)) = 0
    unfold ratTrunc
    rw [if_neg (by norm_num)]
    rw [Int.floor_eq_iff]
    norm_num

lemma contains_iff (l : List String) (x : String) : l.contains x = true ↔ x ∈ l := by
  simp

lemma retry_spec (s : DownloadQueue) (t : DownloadTask) :
    s.retry_task t =
      (if t.max_attempts ≤ t.attempts + 1 then
        (false, { t with attempts := t.attempts + 1 },
          s.task_done { t with attempts := t.attempts + 1 } false)
      else
        s.put { t with attempts := t.attempts + 1, priority := t.priority + 1000 }) := rfl

/-- Every identity in the pending map is absent from the completed set. -/
def PendingCompletedDisjoint (s : DownloadQueue) : Prop :=
  ∀ p ∈ s.pending_tasks, p.1 ∉ s.completed_tasks

lemma get_frame (s : DownloadQueue) :
    (s.get).2.pending_tasks = s.pending_tasks ∧
    (s.get).2.completed_tasks = s.completed_tasks ∧
    (s.get).2.failed_tasks = s.failed_tasks := by
  unfold DownloadQueue.get
  cases hpm : popMin s.queue with
  | none => exact ⟨rfl, rfl, rfl⟩
  | some v => exact ⟨rfl, rfl, rfl⟩

lemma disjoint_put (s : DownloadQueue) (t : DownloadTask)
    (hinv : PendingCompletedDisjoint s) :
    PendingCompletedDisjoint (s.put t).2.2 := by
  rw [put_spec]
  split_ifs with h1 h2
  · exact hinv
  · exact hinv
  · simp only [Bool.or_eq_true, not_or] at h1
    intro p hp
    rcases List.mem_cons.mp hp with rfl | hp
    · intro hc
      exact h1.2 ((contains_iff _ _).mpr hc)
    · exact hinv p hp

lemma disjoint_task_done (s : DownloadQueue) (t : DownloadTask) (b : Bool)
    (hinv : PendingCompletedDisjoint s) :
    PendingCompletedDisjoint (s.task_done t b) := by
  cases b
  · rw [task_done_false_spec]
    intro p hp
    exact hinv p (List.mem_of_mem_filter hp)
  · rw [task_done_true_spec]
    intro p hp
    have hmem := List.mem_filter.mp hp
    have hne : p.1 ≠ generate_task_id t.media_info := by
      simpa using hmem.2
    rw [mem_setAdd_iff]
    push_neg
    exact ⟨hne, hinv p hmem.1⟩

lemma disjoint_retry (s : DownloadQueue) (t : DownloadTask)
    (hinv : PendingCompletedDisjoint s) :
    PendingCompletedDisjoint (s.retry_task t).2.2 := by
  rw [retry_spec]
  split_ifs
  · exact disjoint_task_done s _ false hinv
  · exact disjoint_put s _ hinv

lemma disjoint_applyOp (s : DownloadQueue) (op : QueueOp)
    (hinv : PendingCompletedDisjoint s) :
    PendingCompletedDisjoint (applyOp s op) := by
  cases op with
  | put t => exact disjoint_put s t hinv
  | get =>
    intro p hp
    simp only [applyOp] at hp ⊢
    rw [(get_frame s).2.1]
    exact hinv p (by rwa [(get_frame s).1] at hp)
  | taskDone t b => exact disjoint_task_done s t b hinv
  | retry t => exact disjoint_retry s t hinv
  | clear =>
    intro p hp
    simp [applyOp, DownloadQueue.clear] at hp

lemma disjoint_runOps (s : DownloadQueue) (ops : List QueueOp)
    (hinv : PendingCompletedDisjoint s) :
    PendingCompletedDisjoint (runOps s ops) := by
  induction ops generalizing s with
  | nil => exact hinv
  | cons op ops ih => exact ih (applyOp s op) (disjoint_applyOp s op hinv)

/-- The queue state after `taskA` reached terminal failure. -/
def stateFailed : DownloadQueue := stateAfterGet.task_done (putTask taskA) false

/-- C3 counterexample: after `chan_1` reaches terminal failure, a `put`
with the same identity is accepted (the failed set is not consulted), so
the identity sits in the pending map and the failed set at the same
time — the claimed mutual exclusion of the three sets, and the claimed
rejection after terminal failure, both fail on this concrete run. -/
theorem claim_C3_failed_resubmission_counterexample :
    stateFailed.failed_tasks.contains "chan_1" = true ∧
    pendingHas stateFailed "chan_1" = false ∧
    (stateFailed.put taskA).1 = true ∧
    pendingHas (stateFailed.put taskA).2.2 "chan_1" = true ∧
    (stateFailed.put taskA).2.2.failed_tasks.contains "chan_1" = true := by
  decide

/-- C3 amended: along every sequence of queue operations from a fresh
queue, an identity is never in the pending map and the completed set at
once (put rejects pending/completed duplicates and `task_done` removes
the pending entry before recording a terminal set); the failed set,
however, is not consulted: `put` accepts any task whose identity is
outside pending and completed when the queue has room, so a terminally
failed identity can re-enter pending while staying in the failed set. -/
theorem claim_C3_pending_completed_exclusive :
    (∀ (max_size : Nat) (ops : List QueueOp) (p : String × DownloadTask),
      p ∈ (runOps (DownloadQueue.init max_size) ops).pending_tasks →
      p.1 ∉ (runOps (DownloadQueue.init max_size) ops).completed_tasks) ∧
    (∀ (s : DownloadQueue) (t : DownloadTask),
      pendingHas s (generate_task_id t.media_info) = false →
      s.completed_tasks.contains (generate_task_id t.media_info) = false →
      ¬(0 < s.max_size ∧ s.max_size ≤ s.queue.length) →
      (s.put t).1 = true) := by
  constructor
  · intro max_size ops
    apply disjoint_runOps
    intro p hp
    simp [DownloadQueue.init] at hp
  · intro s t hpend hcomp hfull
    rw [put_spec]
    unfold pendingHas at hpend
    rw [hpend, hcomp]
    rw [if_neg (by simp), if_neg hfull]

/-- The task object and queue state after `k` successive `retry_task`
calls on a dequeued task. -/
def retryIter (s : DownloadQueue) (t : DownloadTask) : Nat → DownloadTask × DownloadQueue
  | 0 => (t, s)
  | k + 1 => ((retryIter s t k).2.retry_task (retryIter s t k).1).2

/-- The task object after `k` non-terminal retries: attempt counter `k`
and priority demoted by `1000 k`. -/
def retryTaskAt (t : DownloadTask) (k : Nat) : DownloadTask :=
  { t with attempts := k, priority := t.priority + 1000 * (k : Int) }

lemma retry_nonterminal (s : DownloadQueue) (u : DownloadTask)
    (hlt : u.attempts + 1 < u.max_attempts)
    (hp : pendingHas s (generate_task_id u.media_info) = true) :
    s.retry_task u =
      (false, { u with attempts := u.attempts + 1, priority := u.priority + 1000 }, s) := by
  rw [retry_spec, if_neg (by omega)]
  exact put_of_pending s _ hp

lemma retry_terminal (s : DownloadQueue) (u : DownloadTask)
    (hge : u.max_attempts ≤ u.attempts + 1) :
    s.retry_task u =
      (false, { u with attempts := u.attempts + 1 },
        s.task_done { u with attempts := u.attempts + 1 } false) := by
  rw [retry_spec, if_pos hge]

lemma retryTaskAt_zero (t : DownloadTask) (h0 : t.attempts = 0) :
    retryTaskAt t 0 = t := by
  cases t
  simp_all [retryTaskAt]

lemma retryTaskAt_succ (t : DownloadTask) (k : Nat) :
    ({ (retryTaskAt t k) with
        attempts := (retryTaskAt t k).attempts + 1
        priority := (retryTaskAt t k).priority + 1000 } : DownloadTask)
      = retryTaskAt t (k + 1) := by
  simp [retryTaskAt]
  ring

lemma retryIter_lt (s : DownloadQueue) (t : DownloadTask)
    (h0 : t.attempts = 0)
    (hp : pendingHas s (generate_task_id t.media_info) = true) :
    ∀ k, k < t.max_attempts → retryIter s t k = (retryTaskAt t k, s) := by
  intro k
  induction k with
  | zero =>
    intro _
    simp [retryIter, retryTaskAt_zero t h0]
  | succ k ih =>
    intro hk
    have hprev := ih (by omega)
    simp only [retryIter, hprev]
    rw [retry_nonterminal s (retryTaskAt t k) (by simp [retryTaskAt]; omega) hp]
    simp [retryTaskAt_succ]

lemma retryIter_terminal (s : DownloadQueue) (t : DownloadTask)
    (h0 : t.attempts = 0) (hmax : 0 < t.max_attempts)
    (hp : pendingHas s (generate_task_id t.media_info) = true) :
    ∀ j,
      (retryIter s t (t.max_attempts + j)).1.media_info = t.media_info ∧
      (retryIter s t (t.max_attempts + j)).1.max_attempts = t.max_attempts ∧
      t.max_attempts ≤ (retryIter s t (t.max_attempts + j)).1.attempts ∧
      pendingHas (retryIter s t (t.max_attempts + j)).2
        (generate_task_id t.media_info) = false ∧
      (retryIter s t (t.max_attempts + j)).2.failed_tasks.contains
        (generate_task_id t.media_info) = true := by
  have hM : t.max_attempts - 1 + 1 = t.max_attempts := Nat.succ_pred_eq_of_pos hmax
  have hbase : retryIter s t t.max_attempts
      = (({ retryTaskAt t (t.max_attempts - 1) with
            attempts := (retryTaskAt t (t.max_attempts - 1)).attempts + 1 } : DownloadTask),
          s.task_done ({ retryTaskAt t (t.max_attempts - 1) with
            attempts := (retryTaskAt t (t.max_attempts - 1)).attempts + 1 }) false) := by
    conv_lhs => rw [← hM]
    simp only [retryIter, retryIter_lt s t h0 hp (t.max_attempts - 1) (by omega)]
    rw [retry_terminal s _ (by simp [retryTaskAt]; omega)]
  intro j
  induction j with
  | zero =>
    rw [Nat.add_zero, hbase]
    refine ⟨rfl, rfl, ?_, ?_, ?_⟩
    · simp [retryTaskAt]
      omega
    · rw [task_done_false_spec]
      unfold pendingHas
      dsimp only
      exact pendingHas_filter_self _ _
    · rw [task_done_false_spec]
      dsimp only
      exact (contains_iff _ _).mpr (mem_setAdd_self _ _)
  | succ j ih =>
    obtain ⟨hmed, hmaxa, hatt, hpend, hfail⟩ := ih
    have hstep : retryIter s t (t.max_attempts + (j + 1))
        = ((retryIter s t (t.max_attempts + j)).2.retry_task
            (retryIter s t (t.max_attempts + j)).1).2 := rfl
    rw [hstep, retry_terminal _ _ (by omega), task_done_false_spec]
    dsimp only
    rw [hmed, hmaxa]
    unfold pendingHas at hpend ⊢
    dsimp only
    refine ⟨rfl, rfl, by omega, ?_, ?_⟩
    · exact pendingHas_filter_le _ _ _ hpend
    · exact (contains_iff _ _).mpr (mem_setAdd_self _ _)

/-- C2: for a dequeued task (attempt counter 0, identity still in the
pending map, as `get` leaves it) and every `k < max_attempts`, after `k`
`retry_task` calls the task's priority is its original plus `1000 k`, the
attempt counter is `k` and the queue state is unchanged (the inner `put`
rejects the still-pending identity before it would overwrite the
priority); the `max_attempts`-th call returns false and marks the task
terminally failed via `task_done(success=False)`, and from then on — for
every number of further retry calls — the identity stays out of the
pending map and in the failed set. -/
theorem claim_C2_retry_lifecycle (s : DownloadQueue) (t : DownloadTask)
    (h0 : t.attempts = 0) (hmax : 0 < t.max_attempts)
    (hp : pendingHas s (generate_task_id t.media_info) = true) :
    (∀ k, k < t.max_attempts →
      (retryIter s t k).1.priority = t.priority + 1000 * (k : Int) ∧
      (retryIter s t k).1.attempts = k ∧
      (retryIter s t k).2 = s) ∧
    ((retryIter s t (t.max_attempts - 1)).2.retry_task
        (retryIter s t (t.max_attempts - 1)).1).1 = false ∧
    (∀ j, pendingHas (retryIter s t (t.max_attempts + j)).2
            (generate_task_id t.media_info) = false ∧
          (retryIter s t (t.max_attempts + j)).2.failed_tasks.contains
            (generate_task_id t.media_info) = true) := by
  refine ⟨?_, ?_, ?_⟩
  · intro k hk
    rw [retryIter_lt s t h0 hp k hk]
    exact ⟨rfl, rfl, rfl⟩
  · rw [retryIter_lt s t h0 hp (t.max_attempts - 1) (by omega)]
    rw [retry_terminal s _ (by simp [retryTaskAt]; omega)]
  · intro j
    exact ⟨(retryIter_terminal s t h0 hmax hp j).2.2.2.1,
           (retryIter_terminal s t h0 hmax hp j).2.2.2.2⟩

/-- C2 witness: the retry lifecycle instantiated on the concrete dequeued
`taskA` run — two retries demote the priority by 2000 and leave the queue
untouched, the third call returns false, and afterwards `chan_1` is out
of pending and recorded as failed. -/
theorem claim_C2_retry_lifecycle_witness :
    (retryIter stateAfterGet (putTask taskA) 2).1.priority
      = (putTask taskA).priority + 1000 * (2 : Int) ∧
    (retryIter stateAfterGet (putTask taskA) 2).2 = stateAfterGet ∧
    ((retryIter stateAfterGet (putTask taskA) 2).2.retry_task
        (retryIter stateAfterGet (putTask taskA) 2).1).1 = false ∧
    pendingHas (retryIter stateAfterGet (putTask taskA) (3 + 0)).2 "chan_1" = false ∧
    (retryIter stateAfterGet (putTask taskA) (3 + 0)).2.failed_tasks.contains "chan_1"
      = true := by
  have H := claim_C2_retry_lifecycle stateAfterGet (putTask taskA) rfl (by decide) (by decide)
  exact ⟨(H.1 2 (by decide)).1, (H.1 2 (by decide)).2.2, H.2.1,
    (H.2.2 0).1, (H.2.2 0).2⟩
